import Mathlib

/-!
Shallow embedding of the tracker-stack price tracking system.

The embedding follows the Python source:
* `src/trackers/base.py` — `BaseTracker.track_price`, `should_notify`,
  `store_price_data`, `send_price_change_notification`;
* `src/trackers/shopee.py` — the sentinel returned by
  `ShopeeTracker.fetch_current_price` on failure;
* `src/trackers/shopee_manager.py` — `track_all_products`, `add_product`;
* `src/lambda/tracker-stack-worker.py` — the per-record body of `handler`.

External collaborators (HTTP fetch, DynamoDB, ntfy) are oracles: an
environment record supplies the result each collaborator call would
produce, and the embedded functions return the outcome together with the
trace of side-effecting calls they performed.
-/

namespace TrackerStack

/-- Python exceptions that the embedded code can raise or carry. -/
inductive PyErr where
  | typeError (msg : String)
  | zeroDivisionError
  | nameError (msg : String)
  | valueError (msg : String)
  | clientError (msg : String)
  | exn (msg : String)
deriving DecidableEq, Repr

/-- A Python value that `fetch_current_price` can return: a float (modelled
as a rational) or a string, since `ShopeeTracker.fetch_current_price`
returns the string sentinel on failure. -/
inductive PyVal where
  | num (q : ℚ)
  | str (s : String)
deriving DecidableEq, Repr

/-- ShopeeTracker.fetch_current_price, except-branch (shopee.py lines 57-60):
on any failure (network error, non-200 status, API error payload) the method
returns the string sentinel instead of raising. -/
def shopee_fetch_failure_result : PyVal := .str "No Data"

/-- BaseTracker.should_notify (base.py lines 76-80): threshold read from the
config with default 0.01; computes abs((current - previous) / previous) and
compares with >=. Subtracting a float from a string raises TypeError, and a
zero previous price raises ZeroDivisionError, as in Python. -/
def should_notify (threshold : Option ℚ) (current_price : PyVal) (previous_price : ℚ) :
    Except PyErr Bool :=
  let thr := threshold.getD (1 / 100)
  match current_price with
  | .str _ => .error (.typeError "unsupported operand type for sub: str and float")
  | .num c =>
      if previous_price = 0 then .error .zeroDivisionError
      else .ok (decide (|(c - previous_price) / previous_price| ≥ thr))

/-- The semantic fields of the alert message rendered by
BaseTracker.send_price_change_notification (base.py lines 86-93). -/
structure NotifyMsg where
  direction_up : Bool
  product_name : String
  old_price : ℚ
  new_price : ℚ
  change_percent : ℚ
deriving DecidableEq, Repr

/-- BaseTracker.send_price_change_notification (base.py lines 82-95): computes
the percent change and direction and renders the message to send through the
ntfy client. Arithmetic on a string new price raises TypeError and a zero old
price raises ZeroDivisionError, as the Python expressions would. -/
def render_price_change_message (product_name : String) (old_price : ℚ) (new_price : PyVal) :
    Except PyErr NotifyMsg :=
  match new_price with
  | .str _ => .error (.typeError "unsupported operand type for sub: str and float")
  | .num np =>
      if old_price = 0 then .error .zeroDivisionError
      else
        .ok { direction_up := decide (np > old_price)
              product_name := product_name
              old_price := old_price
              new_price := np
              change_percent := (np - old_price) / old_price * 100 }

/-- The tracked item data that `track_price` consults: product id, display
name, and the notification_threshold entry of the config (absent means the
0.01 default applies). -/
structure Config where
  product_id : String
  product_name : String
  notification_threshold : Option ℚ
deriving DecidableEq, Repr

/-- Results the external collaborators would return during one `track_price`
call: the fetcher, DynamoDBClient.get_latest_price, DynamoDBClient.store_price,
and the delivery result of the ntfy send.

The ntfy client is modelled from the spec: NtfyClient.send_notification is not
under src/ (only its call site in base.py is), and per the spec the Notifier
returns success/failure and notification errors are best-effort and reported,
never raised, so the send yields a Bool and cannot throw. -/
structure Env where
  fetch : Except PyErr PyVal
  getLatest : Except PyErr (Option ℚ)
  storeWrite : Except PyErr Unit
  notifyDelivered : Bool
deriving Repr

/-- The dict returned by BaseTracker.track_price: the 200 dict of lines 47-54
or the 500 dict of lines 58-62. -/
inductive Outcome where
  | success (product_id : String) (current_price : PyVal)
      (previous_price : Option ℚ) (price_changed : Bool)
  | failure (product_id : String) (error : PyErr)
deriving DecidableEq, Repr

/-- statusCode field of the outcome dict. -/
def Outcome.statusCode : Outcome → Nat
  | .success _ _ _ _ => 200
  | .failure _ _ => 500

/-- price_changed field of the outcome dict (absent on the error dict). -/
def Outcome.price_changed : Outcome → Option Bool
  | .success _ _ _ c => some c
  | .failure _ _ => none

/-- previous_price field of the outcome dict (absent on the error dict). -/
def Outcome.previous_price : Outcome → Option (Option ℚ)
  | .success _ _ p _ => some p
  | .failure _ _ => none

/-- current_price field of the outcome dict (absent on the error dict). -/
def Outcome.current_price : Outcome → Option PyVal
  | .success _ c _ _ => some c
  | .failure _ _ => none

/-- Side-effecting collaborator calls performed during one `track_price` call:
every value passed to DynamoDBClient.store_price and every message handed to
the ntfy client together with its delivery result. -/
structure Trace where
  storeWrites : List PyVal
  notifications : List (NotifyMsg × Bool)
deriving DecidableEq, Repr

/-- BaseTracker.track_price (base.py lines 29-62). Steps, in source order:
fetch_current_price, get_latest_price, store_price_data, then the
`if latest_price and self.should_notify(...)` guard (Python truthiness: a
None or 0.0 latest price skips the notify check) and the notification send;
any exception is caught and converted to the 500 dict. The trace records the
store-write and notification calls that were performed, a failing store write
included (the call to the store happened before it raised). -/
def track_price (cfg : Config) (env : Env) : Outcome × Trace :=
  match env.fetch with
  | .error e => (.failure cfg.product_id e, ⟨[], []⟩)
  | .ok current_price =>
    match env.getLatest with
    | .error e => (.failure cfg.product_id e, ⟨[], []⟩)
    | .ok latest_price =>
      match env.storeWrite with
      | .error e => (.failure cfg.product_id e, ⟨[current_price], []⟩)
      | .ok _ =>
        match latest_price with
        | none =>
            (.success cfg.product_id current_price none false, ⟨[current_price], []⟩)
        | some prev =>
          if prev = 0 then
            (.success cfg.product_id current_price (some prev) false,
             ⟨[current_price], []⟩)
          else
            match should_notify cfg.notification_threshold current_price prev with
            | .error e => (.failure cfg.product_id e, ⟨[current_price], []⟩)
            | .ok false =>
                (.success cfg.product_id current_price (some prev) false,
                 ⟨[current_price], []⟩)
            | .ok true =>
              match render_price_change_message cfg.product_name prev current_price with
              | .error e => (.failure cfg.product_id e, ⟨[current_price], []⟩)
              | .ok msg =>
                  (.success cfg.product_id current_price (some prev) true,
                   ⟨[current_price], [(msg, env.notifyDelivered)]⟩)

/-- A product item as returned by DynamoDBClient.get_shopee_products: a dict
whose keys may be missing, so each field read through .get is an Option. -/
structure ShopeeProduct where
  shopee_product_id : Option String
  shop_id : Option String
  product_name : Option String
  product_url : Option String
  base_url : Option String
  notification_threshold : Option ℚ
deriving DecidableEq, Repr

/-- One element of the results list built by
ShopeeProductsManager.track_all_products: the per-product result dict with
the product_name key added (lines 37-39), the per-product 500 dict of
lines 43-48, or the single systemic 500 dict of lines 52-55. -/
inductive BatchOutcome where
  | tracked (result : Outcome) (product_name : String)
  | itemError (product_id : Option String) (product_name : String) (error : PyErr)
  | listingError (error : PyErr)
deriving DecidableEq, Repr

/-- statusCode field of a batch result dict. -/
def BatchOutcome.statusCode : BatchOutcome → Nat
  | .tracked r _ => r.statusCode
  | .itemError _ _ _ => 500
  | .listingError _ => 500

/-- ShopeeProductsManager.track_all_products (shopee_manager.py lines 13-57).
`listing` is the result of DynamoDBClient.get_shopee_products; `run` is the
result of constructing a ShopeeTracker for one product dict and calling
track_price on it, which may raise (e.g. a KeyError from
product[shopee_product_id] during construction). A raising `run` is caught
by the inner except and converted to a 500 dict carrying
product.get(shopee_product_id); a raising `listing` is caught by the outer
except and yields the single-element systemic failure list. -/
def track_all_products (listing : Except PyErr (List ShopeeProduct))
    (run : ShopeeProduct → Except PyErr Outcome) : List BatchOutcome :=
  match listing with
  | .error e => [.listingError e]
  | .ok products =>
      products.map fun product =>
        match run product with
        | .ok result => .tracked result (product.product_name.getD "")
        | .error e => .itemError product.shopee_product_id (product.product_name.getD "") e

/-- The result dict of ShopeeProductsManager.add_product: the 200 dict of
lines 85-89 or the 500 dict of lines 93-96. -/
inductive AddOutcome where
  | success (message : String) (product_id : String)
  | failure (error : PyErr)
deriving DecidableEq, Repr

/-- statusCode field of the add_product result dict. -/
def AddOutcome.statusCode : AddOutcome → Nat
  | .success _ _ => 200
  | .failure _ => 500

/-- ShopeeProductsManager.add_product (shopee_manager.py lines 59-96). The
validation loop raises ValueError on the first missing required field
(shopee_product_id, shop_id, product_name, in that order). Building
product_item then evaluates datetime.now() at line 79, but shopee_manager.py
imports typing, .shopee, ..clients.dynamodb and logging only — the name
datetime is unbound and a NameError is raised before store_product is
reached; the surrounding except converts every exception to the 500 dict,
so the 200 branch is unreachable. -/
def add_product (product_data : ShopeeProduct) : AddOutcome :=
  if product_data.shopee_product_id = none then
    .failure (.valueError "Missing required field: shopee_product_id")
  else if product_data.shop_id = none then
    .failure (.valueError "Missing required field: shop_id")
  else if product_data.product_name = none then
    .failure (.valueError "Missing required field: product_name")
  else
    .failure (.nameError "name datetime is not defined")

/-- Python int() applied to a float or Decimal: truncation toward zero. -/
def pyInt (q : ℚ) : ℤ := if 0 ≤ q then ⌊q⌋ else ⌈q⌉

/-- The product record read by the worker from the products table; only its
lastPrice attribute (a Decimal, possibly absent) feeds the change decision. -/
structure WorkerProduct where
  lastPrice : Option ℚ
deriving DecidableEq, Repr

/-- Results the AWS collaborators would return during one record of the
worker handler: products_table.get_item, history_table.put_item,
products_table.put_item, sns.publish and the lastCheckedAt update_item. -/
structure WorkerEnv where
  getItem : Except PyErr (Option WorkerProduct)
  historyPut : Except PyErr Unit
  productPut : Except PyErr Unit
  snsPublish : Except PyErr Unit
  updateLastChecked : Except PyErr Unit
deriving Repr

/-- Side-effecting AWS calls performed while processing one worker record. -/
inductive WorkerEffect where
  | historyPut (price : ℤ)
  | productPut (price : ℤ)
  | snsPublish (oldPrice : Option ℚ) (newPrice : ℤ)
  | lastCheckedUpdate
deriving DecidableEq, Repr

/-- The per-record body of the worker handler after a successful fetch
(tracker-stack-worker.py lines 152-226): read the product record, set
last_price = product.get(lastPrice) if product else None, decide
price_changed = last_price is None or int(last_price) != int(price_val);
when changed, put the history item, overwrite the product item and publish
to SNS (each ClientError re-raised, aborting the record); when unchanged,
only update lastCheckedAt, whose ClientError is logged and swallowed. The
effect list records the calls performed, a failing one included. -/
def worker_process_record (env : WorkerEnv) (price_val : ℤ) :
    Except PyErr Unit × List WorkerEffect :=
  match env.getItem with
  | .error e => (.error e, [])
  | .ok product =>
    let last_price := product.bind WorkerProduct.lastPrice
    let price_changed :=
      match last_price with
      | none => true
      | some lp => decide (pyInt lp ≠ price_val)
    if price_changed then
      match env.historyPut with
      | .error e => (.error e, [.historyPut price_val])
      | .ok _ =>
        match env.productPut with
        | .error e => (.error e, [.historyPut price_val, .productPut price_val])
        | .ok _ =>
          match env.snsPublish with
          | .error e =>
              (.error e,
               [.historyPut price_val, .productPut price_val,
                .snsPublish last_price price_val])
          | .ok _ =>
              (.ok (),
               [.historyPut price_val, .productPut price_val,
                .snsPublish last_price price_val])
    else
      (.ok (), [.lastCheckedUpdate])

/-! Concrete items and environments used by the witnesses and
counterexamples below. -/

/-- The gold tracked item, threshold absent so the 0.01 default applies. -/
def cfg_gold : Config := ⟨"gold_doji", "DOJI Gold Price (VND)", none⟩

/-- A Shopee tracked item with the 0.05 threshold that
ShopeeProductsManager passes. -/
def cfg_shopee : Config := ⟨"shopee_5873954476", "Shopee Product", some (5 / 100)⟩

/-- Environment where the store read raises after a successful fetch. -/
def env_read_fail : Env :=
  ⟨.ok (.num 100), .error (.exn "Error fetching latest price: timeout"), .ok (), true⟩

/-- Environment for a first observation: fetch succeeds, no prior record. -/
def env_first_obs : Env := ⟨.ok (.num 50), .ok none, .ok (), true⟩

/-- Environment for a failed Shopee fetch: fetch_current_price returned the
sentinel, no prior record, store write succeeds. -/
def env_shopee_nodata : Env := ⟨.ok shopee_fetch_failure_result, .ok none, .ok (), true⟩

/-- C7: if the latest-value lookup fails after a successful fetch,
track_price returns an error-status outcome, persists nothing and never
calls the notifier. -/
theorem store_read_failure_aborts (cfg : Config) (env : Env) (v : PyVal) (e : PyErr)
    (hf : env.fetch = .ok v) (hl : env.getLatest = .error e) :
    (track_price cfg env).1.statusCode = 500 ∧
    (track_price cfg env).2.storeWrites = [] ∧
    (track_price cfg env).2.notifications = [] := by
  simp [track_price, hf, hl, Outcome.statusCode]

/-- Witness for C7 at a concrete input. -/
theorem store_read_failure_aborts_witness :
    env_read_fail.fetch = .ok (.num 100) ∧
    env_read_fail.getLatest = .error (.exn "Error fetching latest price: timeout") ∧
    ((track_price cfg_gold env_read_fail).1.statusCode = 500 ∧
     (track_price cfg_gold env_read_fail).2.storeWrites = [] ∧
     (track_price cfg_gold env_read_fail).2.notifications = []) :=
  ⟨rfl, rfl,
   store_read_failure_aborts cfg_gold env_read_fail (.num 100)
     (.exn "Error fetching latest price: timeout") rfl rfl⟩

/-- C8: with no prior observation, track_price never calls the notifier,
stores the fetched value as a baseline, and reports price_changed = false
with an absent previous price on a 200 outcome. -/
theorem no_previous_baseline (cfg : Config) (env : Env) (v : PyVal)
    (hf : env.fetch = .ok v) (hl : env.getLatest = .ok none)
    (hw : env.storeWrite = .ok ()) :
    (track_price cfg env).2.notifications = [] ∧
    (track_price cfg env).1.price_changed = some false ∧
    (track_price cfg env).1.previous_price = some none ∧
    (track_price cfg env).2.storeWrites = [v] ∧
    (track_price cfg env).1.statusCode = 200 := by
  simp [track_price, hf, hl, hw, Outcome.statusCode, Outcome.price_changed,
    Outcome.previous_price]

/-- Witness for C8 at a concrete input. -/
theorem no_previous_baseline_witness :
    env_first_obs.fetch = .ok (.num 50) ∧
    env_first_obs.getLatest = .ok none ∧
    env_first_obs.storeWrite = .ok () ∧
    ((track_price cfg_gold env_first_obs).2.notifications = [] ∧
     (track_price cfg_gold env_first_obs).1.price_changed = some false ∧
     (track_price cfg_gold env_first_obs).1.previous_price = some none ∧
     (track_price cfg_gold env_first_obs).2.storeWrites = [.num 50] ∧
     (track_price cfg_gold env_first_obs).1.statusCode = 200) :=
  ⟨rfl, rfl, rfl, no_previous_baseline cfg_gold env_first_obs (.num 50) rfl rfl rfl⟩

/-- C2: a Shopee fetch failure does not produce an error outcome with no
side effects — fetch_current_price returns the sentinel string, track_price
persists it and (with no prior record) returns a 200 outcome carrying the
sentinel as current_price: one store write on a failed fetch. -/
theorem shopee_fetch_failure_stores_sentinel :
    (track_price cfg_shopee env_shopee_nodata).1.statusCode = 200 ∧
    (track_price cfg_shopee env_shopee_nodata).2.storeWrites =
      [shopee_fetch_failure_result] ∧
    (track_price cfg_shopee env_shopee_nodata).1.current_price =
      some (.str "No Data") :=
  ⟨rfl, rfl, rfl⟩

/-- C10: add_product never returns a success outcome: validation failures
return the 500 dict, and on fully valid input the unbound name datetime
raises a NameError that the handler converts to the 500 dict. -/
theorem add_product_always_fails (product_data : ShopeeProduct) :
    (add_product product_data).statusCode = 500 := by
  unfold add_product
  split_ifs <;> rfl

/-- Environment for a call at the exact threshold boundary: previous 100,
current 105, against the 0.05 threshold of cfg_shopee. -/
def env_boundary : Env := ⟨.ok (.num 105), .ok (some 100), .ok (), true⟩

/-- Environment where the notification delivery fails after a large change. -/
def env_notify_fail : Env := ⟨.ok (.num 200), .ok (some 100), .ok (), false⟩

/-- Environment where the previous recorded price is exactly zero. -/
def env_zero_prev : Env := ⟨.ok (.num 50), .ok (some 0), .ok (), true⟩

/-- The gold item with an explicit zero notification threshold. -/
def cfg_thr0 : Config := ⟨"gold_doji", "DOJI Gold Price (VND)", some 0⟩

/-- Environment for the first of two calls with unchanged value 100. -/
def env_call_one : Env := ⟨.ok (.num 100), .ok none, .ok (), true⟩

/-- Environment for the second of two calls with unchanged value 100: the
latest record now holds the value the first call stored. -/
def env_call_two : Env := ⟨.ok (.num 100), .ok (some 100), .ok (), true⟩

/-- Helper: should_notify on a numeric current price and non-zero previous
price returns ok true when the relative change reaches the threshold. -/
theorem should_notify_num_true (thr : Option ℚ) (c p : ℚ) (hp : p ≠ 0)
    (h : |(c - p) / p| ≥ thr.getD (1 / 100)) :
    should_notify thr (.num c) p = .ok true := by
  simp only [should_notify, if_neg hp]
  exact congrArg Except.ok (decide_eq_true h)

/-- Helper: should_notify on a numeric current price and non-zero previous
price returns ok false when the relative change is below the threshold. -/
theorem should_notify_num_false (thr : Option ℚ) (c p : ℚ) (hp : p ≠ 0)
    (h : ¬ |(c - p) / p| ≥ thr.getD (1 / 100)) :
    should_notify thr (.num c) p = .ok false := by
  simp only [should_notify, if_neg hp]
  exact congrArg Except.ok (decide_eq_false h)

/-- Helper: whenever fetch, latest-price read and store write all succeed,
track_price performs exactly one store write, of the fetched value, on every
branch of the notify decision. -/
theorem track_price_single_write (cfg : Config) (env : Env) (v : PyVal) (lp : Option ℚ)
    (hf : env.fetch = .ok v) (hl : env.getLatest = .ok lp)
    (hw : env.storeWrite = .ok ()) :
    (track_price cfg env).2.storeWrites = [v] := by
  rcases lp with _ | p
  · simp [track_price, hf, hl, hw]
  · by_cases hp : p = 0
    · simp [track_price, hf, hl, hw, hp]
    · rcases v with q | s
      · by_cases hge : |(q - p) / p| ≥ cfg.notification_threshold.getD (1 / 100)
        · simp [track_price, hf, hl, hw, hp,
            should_notify_num_true cfg.notification_threshold q p hp hge,
            render_price_change_message]
        · simp [track_price, hf, hl, hw, hp,
            should_notify_num_false cfg.notification_threshold q p hp hge]
      · simp [track_price, hf, hl, hw, hp, should_notify]

/-- C1: with a present, non-zero previous value (and the attempt reaching the
decision: fetch and store write succeeded), the engine notifies and reports
price_changed = true exactly when the absolute relative change reaches the
notification threshold (config value, default 0.01); equality triggers,
strictly below does not. -/
theorem notify_iff_threshold (cfg : Config) (env : Env) (cur prev : ℚ)
    (hf : env.fetch = .ok (.num cur)) (hl : env.getLatest = .ok (some prev))
    (hp : prev ≠ 0) (hw : env.storeWrite = .ok ()) :
    ((track_price cfg env).2.notifications ≠ [] ↔
        |(cur - prev) / prev| ≥ cfg.notification_threshold.getD (1 / 100)) ∧
    ((track_price cfg env).1.price_changed = some true ↔
        |(cur - prev) / prev| ≥ cfg.notification_threshold.getD (1 / 100)) := by
  by_cases hge : |(cur - prev) / prev| ≥ cfg.notification_threshold.getD (1 / 100)
  · have hge' := hge
    simp only [ge_iff_le, one_div] at hge'
    simp [track_price, hf, hl, hw, hp,
      should_notify_num_true cfg.notification_threshold cur prev hp hge,
      render_price_change_message, Outcome.price_changed, hge']
  · have hge' := hge
    simp only [ge_iff_le, one_div, not_le] at hge'
    simp [track_price, hf, hl, hw, hp,
      should_notify_num_false cfg.notification_threshold cur prev hp hge,
      Outcome.price_changed]
    exact hge'

/-- Witness for C1 at the exact boundary: previous 100, current 105,
threshold 0.05 — the relative change equals the threshold and the
notification fires. -/
theorem notify_iff_threshold_witness :
    env_boundary.fetch = .ok (.num 105) ∧
    env_boundary.getLatest = .ok (some 100) ∧
    (100 : ℚ) ≠ 0 ∧
    env_boundary.storeWrite = .ok () ∧
    (((track_price cfg_shopee env_boundary).2.notifications ≠ [] ↔
        |((105 : ℚ) - 100) / 100| ≥ cfg_shopee.notification_threshold.getD (1 / 100)) ∧
     ((track_price cfg_shopee env_boundary).1.price_changed = some true ↔
        |((105 : ℚ) - 100) / 100| ≥ cfg_shopee.notification_threshold.getD (1 / 100))) :=
  ⟨rfl, rfl, by norm_num, rfl,
   notify_iff_threshold cfg_shopee env_boundary 105 100 rfl rfl (by norm_num) rfl⟩

/-- C3: when fetch and persist succeed and the notification send fails
(delivery flag false — the ntfy client, modelled from the spec, reports
failure without raising), track_price still returns a 200 outcome with
price_changed = true and the persisted write in place. -/
theorem notifier_failure_keeps_success (cfg : Config) (env : Env) (cur prev : ℚ)
    (hf : env.fetch = .ok (.num cur)) (hl : env.getLatest = .ok (some prev))
    (hp : prev ≠ 0) (hw : env.storeWrite = .ok ())
    (hn : env.notifyDelivered = false)
    (ht : |(cur - prev) / prev| ≥ cfg.notification_threshold.getD (1 / 100)) :
    (track_price cfg env).1.statusCode = 200 ∧
    (track_price cfg env).1.price_changed = some true ∧
    (track_price cfg env).2.storeWrites = [.num cur] ∧
    (track_price cfg env).2.notifications.map Prod.snd = [false] := by
  simp [track_price, hf, hl, hw, hp,
    should_notify_num_true cfg.notification_threshold cur prev hp ht,
    render_price_change_message, Outcome.statusCode, Outcome.price_changed, hn]

/-- Witness for C3 at a concrete input: previous 100, current 200, default
threshold, failed delivery. -/
theorem notifier_failure_keeps_success_witness :
    env_notify_fail.fetch = .ok (.num 200) ∧
    env_notify_fail.getLatest = .ok (some 100) ∧
    (100 : ℚ) ≠ 0 ∧
    env_notify_fail.notifyDelivered = false ∧
    |((200 : ℚ) - 100) / 100| ≥ cfg_gold.notification_threshold.getD (1 / 100) ∧
    ((track_price cfg_gold env_notify_fail).1.statusCode = 200 ∧
     (track_price cfg_gold env_notify_fail).1.price_changed = some true ∧
     (track_price cfg_gold env_notify_fail).2.storeWrites = [.num 200] ∧
     (track_price cfg_gold env_notify_fail).2.notifications.map Prod.snd = [false]) :=
  ⟨rfl, rfl, by norm_num, rfl, by norm_num [cfg_gold],
   notifier_failure_keeps_success cfg_gold env_notify_fail 200 100 rfl rfl
     (by norm_num) rfl rfl (by norm_num [cfg_gold])⟩

/-- C4 as stated is false: with previous price exactly 0 and current price
50 ≠ 0 the engine sends no notification — the Python truthiness guard
`if latest_price and ...` treats 0.0 as falsy and skips the notify check. -/
theorem zero_previous_claim_cex :
    env_zero_prev.getLatest = .ok (some 0) ∧
    env_zero_prev.fetch = .ok (.num 50) ∧
    (50 : ℚ) ≠ 0 ∧
    (track_price cfg_gold env_zero_prev).2.notifications = [] :=
  ⟨rfl, rfl, by norm_num, rfl⟩

/-- C4 amended: with previous price exactly 0 the engine never notifies,
whatever the current value, and raises no division error: the outcome is 200
with price_changed = false. -/
theorem zero_previous_never_notifies (cfg : Config) (env : Env) (v : PyVal)
    (hf : env.fetch = .ok v) (hl : env.getLatest = .ok (some 0))
    (hw : env.storeWrite = .ok ()) :
    (track_price cfg env).2.notifications = [] ∧
    (track_price cfg env).1.statusCode = 200 ∧
    (track_price cfg env).1.price_changed = some false := by
  simp [track_price, hf, hl, hw, Outcome.statusCode, Outcome.price_changed]

/-- Witness for the amended C4 at a concrete input. -/
theorem zero_previous_never_notifies_witness :
    env_zero_prev.fetch = .ok (.num 50) ∧
    env_zero_prev.getLatest = .ok (some 0) ∧
    env_zero_prev.storeWrite = .ok () ∧
    ((track_price cfg_gold env_zero_prev).2.notifications = [] ∧
     (track_price cfg_gold env_zero_prev).1.statusCode = 200 ∧
     (track_price cfg_gold env_zero_prev).1.price_changed = some false) :=
  ⟨rfl, rfl, rfl, zero_previous_never_notifies cfg_gold env_zero_prev (.num 50) rfl rfl rfl⟩

/-- C5 as stated is false: with a zero notification threshold in the item
config, the second of two calls with unchanged value 100 reports
price_changed = true, not false (the relative change 0 satisfies 0 >= 0 and
a notification is sent). -/
theorem idempotence_claim_cex :
    cfg_thr0.notification_threshold = some 0 ∧
    env_call_two.fetch = .ok (.num 100) ∧
    env_call_two.getLatest = .ok (some 100) ∧
    (track_price cfg_thr0 env_call_two).1.price_changed = some true ∧
    (track_price cfg_thr0 env_call_two).2.notifications ≠ [] := by
  have hs : should_notify cfg_thr0.notification_threshold (.num 100) 100 = .ok true :=
    should_notify_num_true cfg_thr0.notification_threshold 100 100 (by norm_num)
      (by norm_num [cfg_thr0])
  refine ⟨rfl, rfl, rfl, ?_, ?_⟩ <;>
    norm_num [track_price, env_call_two, hs, render_price_change_message,
      Outcome.price_changed]

/-- C5 amended: each successful fetch whose latest-price read also succeeds
causes exactly one store write regardless of change, and — provided the
notification threshold is positive, as the 0.01 and 0.05 defaults are — the
second of two successive calls with an unchanged external value reports
price_changed = false; the two calls make two store writes in total. -/
theorem track_twice_unchanged (cfg : Config) (env1 env2 : Env) (v : ℚ) (prev1 : Option ℚ)
    (hthr : 0 < cfg.notification_threshold.getD (1 / 100))
    (h1f : env1.fetch = .ok (.num v)) (h1l : env1.getLatest = .ok prev1)
    (h1w : env1.storeWrite = .ok ())
    (h2f : env2.fetch = .ok (.num v)) (h2l : env2.getLatest = .ok (some v))
    (h2w : env2.storeWrite = .ok ()) :
    (track_price cfg env2).1.price_changed = some false ∧
    (track_price cfg env1).2.storeWrites = [.num v] ∧
    (track_price cfg env2).2.storeWrites = [.num v] := by
  refine ⟨?_, track_price_single_write cfg env1 (.num v) prev1 h1f h1l h1w,
    track_price_single_write cfg env2 (.num v) (some v) h2f h2l h2w⟩
  by_cases hv : v = 0
  · subst hv
    simp [track_price, h2f, h2l, h2w, Outcome.price_changed]
  · have hno : ¬ (|((v - v) / v : ℚ)| ≥ cfg.notification_threshold.getD (1 / 100)) := by
      rw [sub_self, zero_div, abs_zero, ge_iff_le]
      exact not_le.mpr hthr
    simp [track_price, h2f, h2l, h2w, hv,
      should_notify_num_false cfg.notification_threshold v v hv hno,
      Outcome.price_changed]

/-- Witness for the amended C5: value 100 fetched twice with the default
0.01 threshold. -/
theorem track_twice_unchanged_witness :
    (0 : ℚ) < cfg_gold.notification_threshold.getD (1 / 100) ∧
    env_call_one.fetch = .ok (.num 100) ∧
    env_call_two.fetch = .ok (.num 100) ∧
    env_call_two.getLatest = .ok (some 100) ∧
    ((track_price cfg_gold env_call_two).1.price_changed = some false ∧
     (track_price cfg_gold env_call_one).2.storeWrites = [.num 100] ∧
     (track_price cfg_gold env_call_two).2.storeWrites = [.num 100]) :=
  ⟨by norm_num [cfg_gold], rfl, rfl, rfl,
   track_twice_unchanged cfg_gold env_call_one env_call_two 100 none
     (by norm_num [cfg_gold]) rfl rfl rfl rfl rfl rfl⟩

/-- A product dict with all required fields present. -/
def prod_ok : ShopeeProduct := ⟨some "111", some "22", some "Widget", none, none, none⟩

/-- A product dict whose tracking run raises. -/
def prod_bad : ShopeeProduct := ⟨some "333", some "44", some "Gadget", none, none, none⟩

/-- A demo per-product run: raises for prod_bad, succeeds otherwise. -/
def run_demo : ShopeeProduct → Except PyErr Outcome := fun product =>
  if product.shopee_product_id = some "333" then .error (.exn "boom")
  else .ok (.success "shopee_111" (.num 10) none false)

/-- C6: track_all_products over a successfully listed sequence of N products
returns exactly N outcomes in input order — the i-th outcome comes from the
i-th product, a raising per-product run being converted to an error outcome
carrying that product's id — and a failing listing step yields the
single-element systemic failure list instead of raising. -/
theorem track_all_products_shape (ps : List ShopeeProduct)
    (run : ShopeeProduct → Except PyErr Outcome) (i : Nat) (p : ShopeeProduct)
    (hp : ps[i]? = some p) :
    (track_all_products (.ok ps) run).length = ps.length ∧
    (∀ e, run p = .error e →
      (track_all_products (.ok ps) run)[i]? =
        some (.itemError p.shopee_product_id (p.product_name.getD "") e)) ∧
    (∀ r, run p = .ok r →
      (track_all_products (.ok ps) run)[i]? =
        some (.tracked r (p.product_name.getD ""))) ∧
    (∀ e, track_all_products (.error e) run = [.listingError e]) := by
  refine ⟨by simp [track_all_products], ?_, ?_, fun e => rfl⟩
  · intro e he
    simp [track_all_products, List.getElem?_map, hp, he]
  · intro r hr
    simp [track_all_products, List.getElem?_map, hp, hr]

/-- Witness for C6 on a concrete two-product batch whose second run raises. -/
theorem track_all_products_shape_witness :
    [prod_ok, prod_bad][1]? = some prod_bad ∧
    ((track_all_products (.ok [prod_ok, prod_bad]) run_demo).length =
        [prod_ok, prod_bad].length ∧
     (∀ e, run_demo prod_bad = .error e →
       (track_all_products (.ok [prod_ok, prod_bad]) run_demo)[1]? =
         some (.itemError prod_bad.shopee_product_id
           (prod_bad.product_name.getD "") e)) ∧
     (∀ r, run_demo prod_bad = .ok r →
       (track_all_products (.ok [prod_ok, prod_bad]) run_demo)[1]? =
         some (.tracked r (prod_bad.product_name.getD ""))) ∧
     (∀ e, track_all_products (.error e) run_demo = [.listingError e])) :=
  ⟨rfl, track_all_products_shape [prod_ok, prod_bad] run_demo 1 prod_bad rfl⟩

/-- C9: in the worker, under a successful fetch with all AWS calls
succeeding, the history write, product overwrite and SNS publication all
happen exactly when there is no previous price or the integer truncations
differ; when the truncations agree (a fractional sub-unit change included)
the only call performed is the lastCheckedAt update. -/
theorem worker_integer_change_rule (env : WorkerEnv) (price_val : ℤ)
    (product : Option WorkerProduct)
    (hg : env.getItem = .ok product)
    (hh : env.historyPut = .ok ()) (hq : env.productPut = .ok ())
    (hs : env.snsPublish = .ok ()) :
    ((worker_process_record env price_val).2 =
        [.historyPut price_val, .productPut price_val,
         .snsPublish (product.bind WorkerProduct.lastPrice) price_val] ↔
      (product.bind WorkerProduct.lastPrice = none ∨
        ∃ lp, product.bind WorkerProduct.lastPrice = some lp ∧
          pyInt lp ≠ price_val)) ∧
    (∀ lp, product.bind WorkerProduct.lastPrice = some lp →
      pyInt lp = price_val →
      (worker_process_record env price_val).2 = [.lastCheckedUpdate]) := by
  rcases hl : product.bind WorkerProduct.lastPrice with _ | lp
  · refine ⟨?_, ?_⟩
    · simp [worker_process_record, hg, hh, hq, hs, hl]
    · intro lp h
      exact absurd h (by simp)
  · by_cases hne : pyInt lp = price_val
    · refine ⟨?_, ?_⟩
      · simp [worker_process_record, hg, hh, hq, hs, hl, hne]
      · intro lp' h hpe
        obtain rfl : lp = lp' := by injection h
        simp [worker_process_record, hg, hl, hne]
    · refine ⟨?_, ?_⟩
      · simp [worker_process_record, hg, hh, hq, hs, hl, hne]
      · intro lp' h hpe
        obtain rfl : lp = lp' := by injection h
        exact absurd hpe hne

/-- Worker environment whose product record holds lastPrice 999.5 and whose
AWS calls all succeed. -/
def env_worker_frac : WorkerEnv :=
  ⟨.ok (some ⟨some (1999 / 2)⟩), .ok (), .ok (), .ok (), .ok ()⟩

/-- Witness for C9: previous price 999.5, current price 999 — the integer
truncations agree, so only the lastCheckedAt update happens. -/
theorem worker_integer_change_rule_witness :
    env_worker_frac.getItem = .ok (some ⟨some (1999 / 2)⟩) ∧
    pyInt (1999 / 2 : ℚ) = 999 ∧
    (worker_process_record env_worker_frac 999).2 = [.lastCheckedUpdate] := by
  have hfl : pyInt (1999 / 2 : ℚ) = 999 := by
    simp only [pyInt, if_pos (by norm_num : (0 : ℚ) ≤ 1999 / 2)]
    rw [Int.floor_eq_iff]
    constructor <;> norm_num
  refine ⟨rfl, hfl, ?_⟩
  exact (worker_integer_change_rule env_worker_frac 999 (some ⟨some (1999 / 2)⟩)
    rfl rfl rfl rfl).2 (1999 / 2) rfl hfl

end TrackerStack
